import Mathlib

/-!
Shallow embedding of the playback controller of the web-scrobbler
repository (src/background/object/controller.ts).

The controller source is embedded method by method.  Each controller
method becomes a function `State → ... → State × List Effect`, where the
returned `List Effect` records the externally observable effects the
method performs (coordinator calls, storage writes, listener
notifications), in program order.  Asynchronous collaborator results
(pipeline outcome, per-backend API results) are passed in as explicit
oracle arguments, following the single-threaded cooperative scheduling
model of the system.

Collaborators that are not part of the sources (the Timer primitive, the
Song object, the util helpers, api-call-result, controller-mode) are
modelled from the spec; each such definition carries a doc comment
saying so.
-/

/-- Modelled from the spec: outcome kind of one backend API call.  A
`SubmissionResult` is a backend identifier plus one of Ok, Ignore, Error
(api-call-result.ts is not among the sources). -/
inductive ResultType where
  | ok
  | ignore
  | error
deriving DecidableEq

/-- Modelled from the spec: one per-backend submission result, a backend
identifier together with its outcome kind. -/
structure ApiCallResult where
  scrobblerId : String
  resultType : ResultType
deriving DecidableEq

/-- Modelled from the spec: the result-kind check used as
`result.is(ApiCallResult.RESULT_X)` in the controller. -/
def ApiCallResult.is (r : ApiCallResult) (t : ResultType) : Bool :=
  decide (r.resultType = t)

/-- Modelled from the spec: `isAnyResult` util helper, true when some
result in the list has the given kind (util.ts is not among the sources). -/
def isAnyResult (results : List ApiCallResult) (t : ResultType) : Bool :=
  results.any (fun r => r.is t)

/-- Modelled from the spec: `areAllResults` util helper, true when every
result in the list has the given kind (util.ts is not among the sources). -/
def areAllResults (results : List ApiCallResult) (t : ResultType) : Bool :=
  results.all (fun r => r.is t)

/-- Modelled from the spec: the controller mode enumeration
(controller-mode.ts is not among the sources).  Names follow their use in
controller.ts; the spec calls `Scrobbled` "Submitted", `Unknown`
"Unrecognized" and `Err` "Error". -/
inductive ControllerMode where
  | Base
  | Disabled
  | Err
  | Ignored
  | Loading
  | Playing
  | Scrobbled
  | Skipped
  | Unknown
deriving DecidableEq

/-- Lifecycle events dispatched by the controller (controller.ts). -/
inductive ControllerEvent where
  | Reset
  | SongNowPlaying
  | SongUnrecognized
deriving DecidableEq

/-- A playback-state reading from the connector.  Modelled from the spec:
identity fields `artist, track, album, uniqueID`, plus
`duration: number|null`, `currentTime`, `isPlaying`, `artworkUrl`
(called `trackArt` in the code) and `isPodcast` (song.ts is not among the
sources). -/
structure ParsedSongInfo where
  artist : Option String
  track : Option String
  album : Option String
  uniqueID : Option String
  duration : Option Nat
  currentTime : Option Nat
  isPlaying : Bool
  trackArt : Option String
  isPodcast : Bool
deriving DecidableEq

/-- Modelled from the spec: the mutable per-Track flags
(`isValid`, `isMarkedAsPlaying`, `isReadyToSubmit` = `isReadyToScrobble`,
`isSubmitted` = `isScrobbled`, `isSkipped`, `isReplaying`). -/
structure SongFlags where
  isValid : Bool
  isMarkedAsPlaying : Bool
  isSkipped : Bool
  isReplaying : Bool
  isScrobbled : Bool
  isReadyToScrobble : Bool
deriving DecidableEq

/-- All-false flag set a freshly constructed Song starts with. -/
def defaultFlags : SongFlags :=
  { isValid := false
    isMarkedAsPlaying := false
    isSkipped := false
    isReplaying := false
    isScrobbled := false
    isReadyToScrobble := false }

/-- Modelled from the spec: the controller's current unit of work.
`instanceId` identifies the Track instance (each `new Song(state)` yields
a fresh one); `loveStatus` stands for the user love flag written by
`setLoveStatus`. -/
structure Song where
  parsed : ParsedSongInfo
  flags : SongFlags
  instanceId : Nat
  loveStatus : Option Bool
deriving DecidableEq

/-- Modelled from the spec: `new Song(state)` parses the reading and
starts with clean flags. -/
def Song.make (state : ParsedSongInfo) (id : Nat) : Song :=
  { parsed := state, flags := defaultFlags, instanceId := id, loveStatus := none }

/-- Modelled from the spec: `song.isValid()` reports the validity flag
set by the pipeline. -/
def Song.isValid (song : Song) : Bool :=
  song.flags.isValid

/-- Modelled from the spec: `song.getDuration()` reports the last known
duration. -/
def Song.getDuration (song : Song) : Option Nat :=
  song.parsed.duration

/-- Modelled from the spec: `song.resetData()` clears pipeline-produced
data, in particular all processing flags. -/
def Song.resetData (song : Song) : Song :=
  { song with flags := defaultFlags }

/-- Modelled from the spec: `song.resetInfo()` clears user-provided
overrides (which this embedding does not track separately). -/
def Song.resetInfo (song : Song) : Song :=
  song

/-- Modelled from the spec: `song.setLoveStatus(status)`. -/
def Song.setLoveStatus (song : Song) (status : Bool) : Song :=
  { song with loveStatus := some status }

/-- Modelled from the spec: the pausable, re-targetable countdown timer
(timer.ts is not among the sources).  `elapsed` is accrued playback
seconds, `target` the armed expiry point in accrued seconds, `paused`
suspends accrual. -/
structure Timer where
  elapsed : Nat
  target : Option Nat
  paused : Bool
deriving DecidableEq

/-- Modelled from the spec: `start` re-arms the timer running with no
observable target yet (the actual target is set by a later `update`). -/
def Timer.start : Timer :=
  { elapsed := 0, target := none, paused := false }

/-- Modelled from the spec: `pause` suspends elapsed-time accrual. -/
def Timer.pause (t : Timer) : Timer :=
  { t with paused := true }

/-- Modelled from the spec: `resume` resumes elapsed-time accrual. -/
def Timer.resume (t : Timer) : Timer :=
  { t with paused := false }

/-- Modelled from the spec: `update` rebases the expiry target relative
to the current elapsed time, or clears it when given null; it does not
touch the paused flag. -/
def Timer.update (t : Timer) (targetSeconds : Option Nat) : Timer :=
  match targetSeconds with
  | some v => { t with target := some (t.elapsed + v) }
  | none => { t with target := none }

/-- Modelled from the spec: `reset` clears elapsed time and target and
cancels the scheduled callback. -/
def Timer.reset (_ : Timer) : Timer :=
  { elapsed := 0, target := none, paused := true }

/-- Modelled from the spec: `isExpired` reports whether the target has
been reached. -/
def Timer.isExpired (t : Timer) : Bool :=
  match t.target with
  | some tg => decide (tg ≤ t.elapsed)
  | none => false

/-- Modelled from the spec: `getElapsed` reports accrued seconds. -/
def Timer.getElapsed (t : Timer) : Nat :=
  t.elapsed

/-- Modelled from the spec: accrual of wall-clock seconds while the
timer is running. -/
def Timer.tick (t : Timer) (dt : Nat) : Timer :=
  if t.paused then t else { t with elapsed := t.elapsed + dt }

/-- Modelled from the spec: `getSecondsToScrobble(duration, percent)`
returns the elapsed seconds needed to qualify for submission, or the
sentinel `-1` ("never qualifies") for tracks shorter than the configured
minimum; an unknown duration never qualifies (util.ts is not among the
sources). -/
def getSecondsToScrobble (minTrackDuration : Nat) (duration : Option Nat)
    (percent : Nat) : Int :=
  match duration with
  | none => -1
  | some d => if d < minTrackDuration then -1 else ((d * percent) / 100 : Nat)

/-- Modelled from the spec: `isStateEmpty` util helper, true when the
reading carries no usable identity fields (util.ts is not among the
sources). -/
def isStateEmpty (state : ParsedSongInfo) : Bool :=
  state.artist.isNone && state.track.isNone && state.album.isNone &&
    state.uniqueID.isNone

/-- Observable effects of a controller method, in program order. -/
inductive Effect where
  | announce (songId : Nat)
  | scrobble (songId : Nat)
  | love (songId : Nat) (status : Bool)
  | storageAdd (songId : Nat) (scrobblerIds : List String)
  | savedEditsRemove (songId : Nat)
  | savedEditsSave (songId : Nat)
  | event (e : ControllerEvent)
  | modeChanged (m : ControllerMode)
  | songUpdated
  | log (message : String)
deriving DecidableEq

/-- Controller state (fields of the `Controller` class plus the injected
read-only configuration and a fresh-instance counter for Songs). -/
structure State where
  mode : ControllerMode
  currentSong : Option Song
  playbackTimer : Timer
  replayDetectionTimer : Timer
  isReplayingSong : Bool
  isControllerEnabled : Bool
  shouldScrobblePodcasts : Bool
  scrobblePercent : Nat
  minTrackDuration : Nat
  boundScrobblerIds : List String
  nextId : Nat
deriving DecidableEq

/-- Modelled from the spec: outcome of one Metadata Pipeline run; the
pipeline validates the Track (setting its validity) and may enrich the
known duration, mutating the Track in place. -/
structure PipeResult where
  isValid : Bool
  duration : Option Nat
deriving DecidableEq

/-- Modelled from the spec: apply a pipeline outcome to the Track it
processed. -/
def applyPipeline (pr : PipeResult) (song : Song) : Song :=
  { song with
    flags := { song.flags with isValid := pr.isValid }
    parsed := { song.parsed with
      duration := match pr.duration with
        | some d => some d
        | none => song.parsed.duration } }

/-- List of song fields used to check if the song changed
(controller.ts `fieldsToCheckSongChange`). -/
def fieldsToCheckSongChange : List (ParsedSongInfo → Option String) :=
  [ParsedSongInfo.artist, ParsedSongInfo.track, ParsedSongInfo.album,
    ParsedSongInfo.uniqueID]

/-- `setMode` (controller.ts): store the mode and always notify the
listener. -/
def setMode (s : State) (m : ControllerMode) : State × List Effect :=
  ({ s with mode := m }, [Effect.modeChanged m])

/-- `dispatchEvent` (controller.ts): forward the event to the listener. -/
def dispatchEvent (s : State) (e : ControllerEvent) : State × List Effect :=
  (s, [Effect.event e])

/-- `resetState` (controller.ts): dispatch `Reset`, reset both timers,
clear the current song. -/
def resetState (s : State) : State × List Effect :=
  ({ s with
      playbackTimer := Timer.reset s.playbackTimer
      replayDetectionTimer := Timer.reset s.replayDetectionTimer
      currentSong := none },
    [Effect.event ControllerEvent.Reset])

/-- `reset` (controller.ts): full reset followed by mode `Base`. -/
def reset (s : State) : State × List Effect :=
  let r := resetState s
  let m := setMode r.1 ControllerMode.Base
  (m.1, r.2 ++ m.2)

/-- `isSongChanged` (controller.ts): no current song always counts as
changed; otherwise any differing identity field counts as changed. -/
def isSongChanged (s : State) (newState : ParsedSongInfo) : Bool :=
  match s.currentSong with
  | none => true
  | some song =>
    fieldsToCheckSongChange.any (fun f => decide (f newState ≠ f song.parsed))

/-- `isNeedToUpdateDuration` (controller.ts): the reading carries a
truthy duration different from the song's current one. -/
def isNeedToUpdateDuration (song : Song) (newState : ParsedSongInfo) : Bool :=
  match newState.duration with
  | none => false
  | some d => decide (d ≠ 0) && decide (song.parsed.duration ≠ some d)

/-- The scrobble threshold for the given duration under the controller's
configuration (controller.ts private `getSecondsToScrobble`). -/
def secondsToScrobbleOf (s : State) (duration : Option Nat) : Int :=
  getSecondsToScrobble s.minTrackDuration duration s.scrobblePercent

/-- `isNeedToAddSongToScrobbleStorage` (controller.ts): an invalid
current song whose scrobble threshold is not the sentinel and whose
playback timer has accrued at least the threshold. -/
def isNeedToAddSongToScrobbleStorage (s : State) : Bool :=
  match s.currentSong with
  | none => false
  | some song =>
    if song.isValid then false
    else
      let secondsToScrobble := secondsToScrobbleOf s song.getDuration
      if secondsToScrobble = -1 then false
      else decide (secondsToScrobble ≤ (s.playbackTimer.getElapsed : Int))

/-- `addSongToScrobbleStorage` (controller.ts): store the current song
keyed by the given scrobbler ids, defaulting to all bound scrobblers. -/
def addSongToScrobbleStorage (s : State) (scrobblerIds : Option (List String)) :
    State × List Effect :=
  match s.currentSong with
  | none => (s, [])
  | some song =>
    let ids := scrobblerIds.getD s.boundScrobblerIds
    (s, [Effect.storageAdd song.instanceId ids])

/-- `updateTimers` (controller.ts): a no-op (apart from a warning) once
the playback timer is expired; otherwise retarget the playback timer at
the scrobble threshold and the replay timer at the full duration, or do
nothing when the threshold is the sentinel. -/
def updateTimers (s : State) (duration : Option Nat) : State × List Effect :=
  if s.playbackTimer.isExpired then
    (s, [Effect.log "Attempt to update expired timers"])
  else
    let secondsToScrobble := secondsToScrobbleOf s duration
    if secondsToScrobble = -1 then
      (s, [Effect.log "The song is too short to scrobble"])
    else
      ({ s with
          playbackTimer := s.playbackTimer.update (some secondsToScrobble.toNat)
          replayDetectionTimer := s.replayDetectionTimer.update duration },
        [Effect.log "The song will be scrobbled soon",
          Effect.log "The song will be repeated after its duration"])

/-- `updateSongDuration` (controller.ts): write the new duration into the
song and, when the song is valid, update both timers. -/
def updateSongDuration (s : State) (duration : Nat) : State × List Effect :=
  match s.currentSong with
  | none => (s, [])
  | some song =>
    let song1 : Song :=
      { song with parsed := { song.parsed with duration := some duration } }
    let s1 := { s with currentSong := some song1 }
    let base := [Effect.log "Update duration"]
    if song1.isValid then
      let u := updateTimers s1 (some duration)
      (u.1, base ++ u.2)
    else (s1, base)

/-- `setSongNowPlaying` (controller.ts): latch `isMarkedAsPlaying`, call
the coordinator's announce endpoint, set mode `Playing` on any Ok result
and `Err` otherwise, then always dispatch `SongNowPlaying`. -/
def setSongNowPlaying (s : State) (results : List ApiCallResult) :
    State × List Effect :=
  match s.currentSong with
  | none => (s, [])
  | some song =>
    let song1 : Song :=
      { song with flags := { song.flags with isMarkedAsPlaying := true } }
    let s1 := { s with currentSong := some song1 }
    let callActs := [Effect.announce song.instanceId]
    let m :=
      if isAnyResult results ResultType.ok then
        let r := setMode s1 ControllerMode.Playing
        (r.1, Effect.log "Song set as now playing" :: r.2)
      else
        let r := setMode s1 ControllerMode.Err
        (r.1, Effect.log "Song is not set as now playing" :: r.2)
    let d := dispatchEvent m.1 ControllerEvent.SongNowPlaying
    (d.1, callActs ++ m.2 ++ d.2)

/-- `setSongNotRecognized` (controller.ts). -/
def setSongNotRecognized (s : State) : State × List Effect :=
  let m := setMode s ControllerMode.Unknown
  let d := dispatchEvent m.1 ControllerEvent.SongUnrecognized
  (d.1, m.2 ++ d.2)

/-- The scrobbler ids of all results that are not Ok, as computed in
`scrobbleSong` (controller.ts). -/
def failedScrobblerIdsOf (results : List ApiCallResult) : List String :=
  (results.filter (fun r => !(r.is ResultType.ok))).map
    (fun r => r.scrobblerId)

/-- `scrobbleSong` (controller.ts): call the coordinator's scrobble
endpoint; if strictly more results exist than failed (non-Ok) ones, latch
`isScrobbled` and set mode `Scrobbled`; else mode `Ignored` when all
results are Ignore, else mode `Err`; finally queue the failed scrobbler
ids to the scrobble storage when any exist. -/
def scrobbleSong (s : State) (results : List ApiCallResult) :
    State × List Effect :=
  match s.currentSong with
  | none => (s, [])
  | some song =>
    let callActs := [Effect.scrobble song.instanceId]
    let failedScrobblerIds := failedScrobblerIdsOf results
    let classified :=
      if results.length > failedScrobblerIds.length then
        let song1 : Song :=
          { song with flags := { song.flags with isScrobbled := true } }
        let s1 := { s with currentSong := some song1 }
        let m := setMode s1 ControllerMode.Scrobbled
        (m.1, (Effect.log "Scrobbled successfully" :: m.2) ++
          [Effect.songUpdated])
      else if areAllResults results ResultType.ignore then
        let m := setMode s ControllerMode.Ignored
        (m.1, Effect.log "Song is ignored by service" :: m.2)
      else
        let m := setMode s ControllerMode.Err
        (m.1, Effect.log "Scrobbling failed" :: m.2)
    let queued :=
      if 0 < failedScrobblerIds.length then
        addSongToScrobbleStorage classified.1 (some failedScrobblerIds)
      else (classified.1, [])
    (queued.1, callActs ++ classified.2 ++ queued.2)

/-- `onPlaybackTimerExpired` (controller.ts): mark ready to scrobble and,
unless the song is flagged skipped, scrobble it. -/
def onPlaybackTimerExpired (s : State) (results : List ApiCallResult) :
    State × List Effect :=
  match s.currentSong with
  | none => (s, [])
  | some song =>
    let song1 : Song :=
      { song with flags := { song.flags with isReadyToScrobble := true } }
    let s1 := { s with currentSong := some song1 }
    let base := [Effect.log "Mark song as ready to scrobble"]
    if song1.flags.isSkipped then (s1, base)
    else
      let r := scrobbleSong s1 results
      (r.1, base ++ r.2)

/-- `onReplayTimerExpired` (controller.ts): latch the replay flag for the
next reading. -/
def onReplayTimerExpired (s : State) : State × List Effect :=
  ({ s with isReplayingSong := true }, [Effect.log "Mark song as replaying"])

/-- `onPlayingStateChanged` (controller.ts): on resume, resume both
timers and either announce (if not yet marked as playing and valid) or
re-emit the current mode; on pause, pause both timers. -/
def onPlayingStateChanged (s : State) (value : Bool)
    (announceResults : List ApiCallResult) : State × List Effect :=
  let base := [Effect.log "isPlaying state changed"]
  if value then
    let s1 := { s with
      playbackTimer := s.playbackTimer.resume
      replayDetectionTimer := s.replayDetectionTimer.resume }
    match s1.currentSong with
    | none => (s1, base)
    | some song =>
      if !song.flags.isMarkedAsPlaying && song.isValid then
        let r := setSongNowPlaying s1 announceResults
        (r.1, base ++ r.2)
      else
        let r := setMode s1 s1.mode
        (r.1, base ++ r.2)
  else
    ({ s with
        playbackTimer := s.playbackTimer.pause
        replayDetectionTimer := s.replayDetectionTimer.pause }, base)

/-- `processCurrentState` (controller.ts): ignored entirely for a skipped
song; otherwise merge `currentTime`, `isPlaying`, `trackArt` into the
current song, update the duration when needed, and react to an
`isPlaying` toggle. -/
def processCurrentState (s : State) (newState : ParsedSongInfo)
    (announceResults : List ApiCallResult) : State × List Effect :=
  match s.currentSong with
  | none => (s, [])
  | some song =>
    if song.flags.isSkipped then (s, [])
    else
      let isPlayingStateChanged := decide (song.parsed.isPlaying ≠ newState.isPlaying)
      let song1 : Song :=
        { song with parsed := { song.parsed with
            currentTime := newState.currentTime
            isPlaying := newState.isPlaying
            trackArt := newState.trackArt } }
      let s1 := { s with currentSong := some song1 }
      let afterDuration :=
        if isNeedToUpdateDuration song1 newState then
          updateSongDuration s1 (newState.duration.getD 0)
        else (s1, ([] : List Effect))
      if isPlayingStateChanged then
        let r := onPlayingStateChanged afterDuration.1 newState.isPlaying
          announceResults
        (r.1, afterDuration.2 ++ r.2)
      else afterDuration

/-- `processEmptyState` (controller.ts): when a song is current, first
apply the pending-submission heuristic, then fully reset; when the empty
reading claims `isPlaying`, only log a warning in addition. -/
def processEmptyState (s : State) (state : ParsedSongInfo) :
    State × List Effect :=
  let main :=
    match s.currentSong with
    | none => (s, ([] : List Effect))
    | some _ =>
      let base := [Effect.log "Received empty state - resetting"]
      let stored :=
        if isNeedToAddSongToScrobbleStorage s then
          let a := addSongToScrobbleStorage s none
          (a.1, base ++ a.2)
        else (s, base)
      let r := reset stored.1
      (r.1, stored.2 ++ r.2)
  if state.isPlaying then
    (main.1, main.2 ++
      [Effect.log "State does not contain enough information about the playing track"])
  else main

/-- `processNewState` (controller.ts): full reset, construct the new song
carrying the in-flight replay flag, start both timers, and pause them
right away when the reading is not playing. -/
def processNewState (s : State) (state : ParsedSongInfo) :
    State × List Effect :=
  let r := resetState s
  let s1 := r.1
  let song0 := Song.make state s1.nextId
  let song : Song :=
    { song0 with flags := { song0.flags with isReplaying := s1.isReplayingSong } }
  let s2 := { s1 with
    currentSong := some song
    nextId := s1.nextId + 1
    playbackTimer := Timer.start
    replayDetectionTimer := Timer.start
    isReplayingSong := false }
  let s3 :=
    if !state.isPlaying then
      { s2 with
        playbackTimer := s2.playbackTimer.pause
        replayDetectionTimer := s2.replayDetectionTimer.pause }
    else s2
  (s3, r.2 ++ [Effect.log "New song detected"])

/-- Body of `skipCurrentSong` (controller.ts) past its precondition
check: set mode `Skipped`, flag the song skipped, notify the listener. -/
def skipCurrentSongCore (s : State) : State × List Effect :=
  match s.currentSong with
  | none => (s, [])
  | some song =>
    let m := setMode s ControllerMode.Skipped
    let song1 : Song :=
      { song with flags := { song.flags with isSkipped := true } }
    ({ m.1 with currentSong := some song1 }, m.2 ++ [Effect.songUpdated])

/-- `processSong` (controller.ts): set mode `Loading`, run the pipeline;
on a valid song clear `isMarkedAsPlaying`, update the timers, skip
excluded podcasts, and while playing either announce (timer not yet
expired) or only dispatch `SongNowPlaying` (timer already expired); when
not playing set mode `Base`; on an invalid song mark it unrecognized.
Always ends with a song-updated notification. -/
def processSong (s : State) (pr : PipeResult)
    (announceResults : List ApiCallResult) : State × List Effect :=
  let m := setMode s ControllerMode.Loading
  match m.1.currentSong with
  | none => (m.1, m.2)
  | some song0 =>
    let song := applyPipeline pr song0
    let s1 := { m.1 with currentSong := some song }
    let base := m.2 ++ [Effect.log "Song finished processing"]
    if song.isValid then
      let song1 : Song :=
        { song with flags := { song.flags with isMarkedAsPlaying := false } }
      let s2 := { s1 with currentSong := some song1 }
      let u := updateTimers s2 song1.getDuration
      let acts := base ++ u.2
      if !u.1.shouldScrobblePodcasts && song1.parsed.isPodcast then
        let k := skipCurrentSongCore u.1
        (k.1, acts ++ k.2)
      else if song1.parsed.isPlaying then
        if !u.1.playbackTimer.isExpired then
          let n := setSongNowPlaying u.1 announceResults
          (n.1, acts ++ n.2 ++ [Effect.songUpdated])
        else
          let d := dispatchEvent u.1 ControllerEvent.SongNowPlaying
          (d.1, acts ++ d.2 ++ [Effect.songUpdated])
      else
        let b := setMode u.1 ControllerMode.Base
        (b.1, acts ++ b.2 ++ [Effect.songUpdated])
    else
      let n := setSongNotRecognized s1
      (n.1, base ++ n.2 ++ [Effect.songUpdated])

/-- `unprocessSong` (controller.ts): clear the song's processed data and
both timer targets before re-entering the pipeline. -/
def unprocessSong (s : State) : State × List Effect :=
  match s.currentSong with
  | none => (s, [])
  | some song =>
    ({ s with
        currentSong := some song.resetData
        playbackTimer := s.playbackTimer.update none
        replayDetectionTimer := s.replayDetectionTimer.update none },
      [Effect.log "Song unprocessed",
        Effect.log "Clearing playback timer destination time"])

/-- `processStateChange` (controller.ts): the state-reading entry point. -/
def processStateChange (s : State) (state : ParsedSongInfo) (pr : PipeResult)
    (announceResults : List ApiCallResult) : State × List Effect :=
  if !s.isControllerEnabled then (s, [])
  else if isStateEmpty state then processEmptyState s state
  else
    let changed := isSongChanged s state
    if changed || s.isReplayingSong then
      if state.isPlaying then
        let stored :=
          if isNeedToAddSongToScrobbleStorage s then
            addSongToScrobbleStorage s none
          else (s, ([] : List Effect))
        let n := processNewState stored.1 state
        let p := processSong n.1 pr announceResults
        (p.1, stored.2 ++ n.2 ++ p.2)
      else reset s
    else processCurrentState s state announceResults

/-- `resetSongData` (controller.ts): requires a current song; clear its
overrides and saved edits, unprocess it and re-run the pipeline. -/
def resetSongData (s : State) (pr : PipeResult)
    (announceResults : List ApiCallResult) :
    Except String (State × List Effect) :=
  match s.currentSong with
  | none => Except.error "No song is now playing"
  | some song =>
    let s1 := { s with currentSong := some song.resetInfo }
    let saved := [Effect.savedEditsRemove song.instanceId]
    let u := unprocessSong s1
    let p := processSong u.1 pr announceResults
    Except.ok (p.1, saved ++ u.2 ++ p.2)

/-- `skipCurrentSong` (controller.ts): requires a current song. -/
def skipCurrentSong (s : State) : Except String (State × List Effect) :=
  match s.currentSong with
  | none => Except.error "No song is now playing"
  | some _ => Except.ok (skipCurrentSongCore s)

/-- `setUserSongData` (controller.ts): requires a current, not yet
scrobbled song; save the edits, unprocess and re-run the pipeline. -/
def setUserSongData (s : State) (pr : PipeResult)
    (announceResults : List ApiCallResult) :
    Except String (State × List Effect) :=
  match s.currentSong with
  | none => Except.error "No song is now playing"
  | some song =>
    if song.flags.isScrobbled then
      Except.error "Unable to set user data for scrobbled song"
    else
      let saved := [Effect.savedEditsSave song.instanceId]
      let u := unprocessSong s
      let p := processSong u.1 pr announceResults
      Except.ok (p.1, saved ++ u.2 ++ p.2)

/-- `toggleLove` (controller.ts): requires a current, valid song; call
the coordinator's love endpoint and store the new status. -/
def toggleLove (s : State) (loveStatus : Bool) :
    Except String (State × List Effect) :=
  match s.currentSong with
  | none => Except.error "No song is now playing"
  | some song =>
    if !song.isValid then Except.error "No valid song is now playing"
    else
      let song1 := song.setLoveStatus loveStatus
      Except.ok ({ s with currentSong := some song1 },
        [Effect.love song.instanceId loveStatus, Effect.songUpdated])

/-- `setEnabled` (controller.ts). -/
def setEnabled (s : State) (flag : Bool) : State × List Effect :=
  let s0 := { s with isControllerEnabled := flag }
  if flag then setMode s0 ControllerMode.Base
  else
    let r := resetState s0
    let m := setMode r.1 ControllerMode.Disabled
    (m.1, r.2 ++ m.2)

/-- One externally triggered controller step, carrying the collaborator
results the triggered code will consume. -/
inductive Step where
  | stateChange (state : ParsedSongInfo) (pr : PipeResult)
      (announceResults : List ApiCallResult)
  | playbackExpired (scrobbleResults : List ApiCallResult)
  | replayExpired
  | tick (dt : Nat)
  | resetSongDataOp (pr : PipeResult) (announceResults : List ApiCallResult)
  | setUserSongDataOp (pr : PipeResult) (announceResults : List ApiCallResult)
  | skipOp
  | toggleLoveOp (loveStatus : Bool)
  | setEnabledOp (flag : Bool)
deriving DecidableEq

/-- A user operation that throws leaves the controller state unchanged. -/
def liftUserOp (s : State) (r : Except String (State × List Effect)) :
    State × List Effect :=
  match r with
  | Except.ok out => out
  | Except.error _ => (s, [])

/-- The controller's step function over externally triggered steps. -/
def step (s : State) (σ : Step) : State × List Effect :=
  match σ with
  | Step.stateChange state pr ar => processStateChange s state pr ar
  | Step.playbackExpired results => onPlaybackTimerExpired s results
  | Step.replayExpired => onReplayTimerExpired s
  | Step.tick dt =>
    ({ s with
        playbackTimer := s.playbackTimer.tick dt
        replayDetectionTimer := s.replayDetectionTimer.tick dt }, [])
  | Step.resetSongDataOp pr ar => liftUserOp s (resetSongData s pr ar)
  | Step.setUserSongDataOp pr ar => liftUserOp s (setUserSongData s pr ar)
  | Step.skipOp => liftUserOp s (skipCurrentSong s)
  | Step.toggleLoveOp st => liftUserOp s (toggleLove s st)
  | Step.setEnabledOp flag => setEnabled s flag

/-- Run a sequence of steps, collecting all emitted actions. -/
def run (s : State) (steps : List Step) : State × List Effect :=
  match steps with
  | [] => (s, [])
  | σ :: rest =>
    let r := step s σ
    let rr := run r.1 rest
    (rr.1, r.2 ++ rr.2)

/-- Does the current song carry the `isScrobbled` latch? -/
def songIsScrobbled (s : State) : Bool :=
  match s.currentSong with
  | some song => song.flags.isScrobbled
  | none => false

/-- The storage-queueing effects among a method's effects. -/
def storageAddsOf (effects : List Effect) : List Effect :=
  effects.filter (fun e =>
    match e with
    | Effect.storageAdd _ _ => true
    | _ => false)

/-- The scrobbler ids of exactly the `Error` results. -/
def errorScrobblerIdsOf (results : List ApiCallResult) : List String :=
  (results.filter (fun r => r.is ResultType.error)).map
    (fun r => r.scrobblerId)

/-- The claim of C1, as stated: classify a submit outcome by comparing the
count of non-failed results against the count of failed (non-Ok) ones. -/
def scrobbleClassifiedPerSpecAt (s : State) (results : List ApiCallResult) :
    Prop :=
  (results.length - (failedScrobblerIdsOf results).length >
      (failedScrobblerIdsOf results).length →
    (scrobbleSong s results).1.mode = ControllerMode.Scrobbled ∧
      songIsScrobbled (scrobbleSong s results).1 = true) ∧
  (¬ results.length - (failedScrobblerIdsOf results).length >
      (failedScrobblerIdsOf results).length →
    areAllResults results ResultType.ignore = true →
    (scrobbleSong s results).1.mode = ControllerMode.Ignored) ∧
  (¬ results.length - (failedScrobblerIdsOf results).length >
      (failedScrobblerIdsOf results).length →
    areAllResults results ResultType.ignore = false →
    (scrobbleSong s results).1.mode = ControllerMode.Err)

/-- The claim of C2, as stated: after a submit, exactly the `Error` result
ids are queued, and only when the current Track is invalid. -/
def queuedPerSpecAt (s : State) (song : Song) (results : List ApiCallResult) :
    Prop :=
  storageAddsOf (scrobbleSong s results).2 =
    (if errorScrobblerIdsOf results ≠ [] ∧ song.isValid = false then
      [Effect.storageAdd song.instanceId (errorScrobblerIdsOf results)]
    else [])

/-- The merge part of the claim of C6, as stated: after a reading with
unchanged identity and no replay flag, the current Track carries the
reading's `currentTime`, `isPlaying` and `trackArt`.  (The full claim is
this conjoined with duration and timer conditions, so refuting this part
refutes the claim.) -/
def mergedPerSpecAt (s : State) (st : ParsedSongInfo) (pr : PipeResult)
    (ar : List ApiCallResult) : Prop :=
  let out := (processStateChange s st pr ar).1
  out.currentSong.map (fun song => song.parsed.currentTime) =
      some st.currentTime ∧
    out.currentSong.map (fun song => song.parsed.isPlaying) =
      some st.isPlaying ∧
    out.currentSong.map (fun song => song.parsed.trackArt) =
      some st.trackArt

/-- The two user operations that explicitly reset the current Track's
processed data (both route through `unprocessSong`) before re-running the
pipeline. -/
def isExplicitResetStep (σ : Step) : Bool :=
  match σ with
  | Step.resetSongDataOp _ _ => true
  | Step.setUserSongDataOp _ _ => true
  | _ => false

/-- The announce action is blocked for Track instance `id`: the id was
handed out already, and if the current song is that instance then its
`isMarkedAsPlaying` latch is set. -/
def announceBlocked (s : State) (id : Nat) : Prop :=
  id < s.nextId ∧
    ∀ cur, s.currentSong = some cur → cur.instanceId = id →
      cur.flags.isMarkedAsPlaying = true

/-- A concrete valid, playing song used by witnesses. -/
def sampleSong : Song :=
  { parsed :=
      { artist := some "a", track := some "t", album := none,
        uniqueID := none, duration := some 240, currentTime := some 10,
        isPlaying := true, trackArt := none, isPodcast := false }
    flags :=
      { isValid := true, isMarkedAsPlaying := false, isSkipped := false,
        isReplaying := false, isScrobbled := false,
        isReadyToScrobble := false }
    instanceId := 0
    loveStatus := none }

/-- A concrete controller state used by witnesses. -/
def sampleState : State :=
  { mode := ControllerMode.Playing
    currentSong := some sampleSong
    playbackTimer := { elapsed := 10, target := some 120, paused := false }
    replayDetectionTimer := { elapsed := 10, target := some 240, paused := false }
    isReplayingSong := false
    isControllerEnabled := true
    shouldScrobblePodcasts := true
    scrobblePercent := 50
    minTrackDuration := 30
    boundScrobblerIds := ["lastfm"]
    nextId := 1 }

/-- `sampleSong` with its validity flag cleared. -/
def invalidSampleSong : Song :=
  { sampleSong with flags := { sampleSong.flags with isValid := false } }

/-- `sampleState` holding an invalid song whose playback timer has
accrued 120 seconds. -/
def invalidSongState : State :=
  { sampleState with
    currentSong := some invalidSampleSong
    playbackTimer := { elapsed := 120, target := some 120, paused := false } }

/-- A reading with the same identity fields as `sampleSong` but a
different current time. -/
def sameIdentityReading : ParsedSongInfo :=
  { artist := some "a", track := some "t", album := none, uniqueID := none,
    duration := some 240, currentTime := some 99, isPlaying := true,
    trackArt := none, isPodcast := false }

/-- A reading with no identity fields that claims to be playing. -/
def emptyPlayingReading : ParsedSongInfo :=
  { artist := none, track := none, album := none, uniqueID := none,
    duration := none, currentTime := some 5, isPlaying := true,
    trackArt := none, isPodcast := false }

/-- The data of a song that the announce-blocked invariant tracks: its
instance identity and its `isMarkedAsPlaying` latch. -/
def songKey (c : Song) : Nat × Bool :=
  (c.instanceId, c.flags.isMarkedAsPlaying)

/-- The song as it stands inside `processSong` right after a successful
pipeline run: pipeline outcome applied and `isMarkedAsPlaying` cleared. -/
def pipelineProcessedSong (pr : PipeResult) (song : Song) : Song :=
  { applyPipeline pr song with
    flags := { (applyPipeline pr song).flags with isMarkedAsPlaying := false } }

/-- The controller state inside `processSong` right before its
`updateTimers` call, for a successful pipeline run. -/
def processSongLoadingState (s : State) (pr : PipeResult) (song : Song) :
    State :=
  { s with
    mode := ControllerMode.Loading
    currentSong := some (pipelineProcessedSong pr song) }

/-- `sampleSong` flagged skipped. -/
def skippedSampleSong : Song :=
  { sampleSong with flags := { sampleSong.flags with isSkipped := true } }

/-- `sampleState` holding the skipped song. -/
def skippedSongState : State :=
  { sampleState with currentSong := some skippedSampleSong }

/-- `sampleSong` with the `isMarkedAsPlaying` latch set. -/
def markedSampleSong : Song :=
  { sampleSong with
    flags := { sampleSong.flags with isMarkedAsPlaying := true } }

/-- `sampleState` holding the marked-as-playing song. -/
def markedSongState : State :=
  { sampleState with currentSong := some markedSampleSong }

/-- `sampleState` with an already expired playback timer. -/
def expiredTimerState : State :=
  { sampleState with
    playbackTimer := { elapsed := 130, target := some 120, paused := false } }

/-- C8: the pending-submission heuristic holds exactly when a current
song exists, it is not valid, the scrobble threshold for its last known
duration is not the never-qualifies sentinel, and the playback timer has
accrued at least that threshold. -/
theorem isNeedToAddSongToScrobbleStorage_iff (s : State) :
    isNeedToAddSongToScrobbleStorage s = true ↔
      ∃ song, s.currentSong = some song ∧ song.isValid = false ∧
        secondsToScrobbleOf s song.getDuration ≠ -1 ∧
        secondsToScrobbleOf s song.getDuration ≤
          (s.playbackTimer.getElapsed : Int) := by
  unfold isNeedToAddSongToScrobbleStorage
  cases h : s.currentSong with
  | none => simp
  | some song =>
    by_cases hv : song.isValid
    · simp [hv]
    · by_cases hstc : secondsToScrobbleOf s song.getDuration = -1
      · simp [hv, hstc]
      · simp [hv, hstc]

/-- C3: for a non-empty reading, song-change detection is true exactly
when no current song exists or one of the identity fields `artist`,
`track`, `album`, `uniqueID` differs; it is independent of `currentTime`,
`isPlaying`, `trackArt` and `duration`. -/
theorem isSongChanged_iff_identity (s : State) (st : ParsedSongInfo)
    (_hne : isStateEmpty st = false) :
    (isSongChanged s st = true ↔
      (s.currentSong = none ∨ ∃ song, s.currentSong = some song ∧
        (st.artist ≠ song.parsed.artist ∨ st.track ≠ song.parsed.track ∨
          st.album ≠ song.parsed.album ∨
          st.uniqueID ≠ song.parsed.uniqueID))) ∧
    (∀ ct ip ta d,
      isSongChanged s
          { st with
            currentTime := ct
            isPlaying := ip
            trackArt := ta
            duration := d } =
        isSongChanged s st) := by
  constructor
  · cases h : s.currentSong with
    | none => simp [isSongChanged, h]
    | some song =>
      simp [isSongChanged, h, fieldsToCheckSongChange, or_assoc]
  · intro ct ip ta d
    cases h : s.currentSong with
    | none => simp [isSongChanged, h]
    | some song =>
      simp [isSongChanged, h, fieldsToCheckSongChange]

/-- Witness for C3 at a concrete state and reading. -/
theorem isSongChanged_iff_identity_witness :
    isStateEmpty sameIdentityReading = false ∧
      (isSongChanged sampleState sameIdentityReading = true ↔
        (sampleState.currentSong = none ∨
          ∃ song, sampleState.currentSong = some song ∧
            (sameIdentityReading.artist ≠ song.parsed.artist ∨
              sameIdentityReading.track ≠ song.parsed.track ∨
              sameIdentityReading.album ≠ song.parsed.album ∨
              sameIdentityReading.uniqueID ≠ song.parsed.uniqueID))) := by
  refine ⟨by decide, ?_⟩
  exact (isSongChanged_iff_identity sampleState sameIdentityReading (by decide)).1

/-- C9: all four user-triggered operations fail synchronously when no
song is current; `setUserSongData` additionally fails on an
already-scrobbled song, and `toggleLove` on an invalid one. -/
theorem userOps_precondition_failures :
    (∀ s pr ar b, s.currentSong = none →
      resetSongData s pr ar = Except.error "No song is now playing" ∧
        skipCurrentSong s = Except.error "No song is now playing" ∧
        setUserSongData s pr ar = Except.error "No song is now playing" ∧
        toggleLove s b = Except.error "No song is now playing") ∧
    (∀ s song pr ar, s.currentSong = some song →
      song.flags.isScrobbled = true →
      setUserSongData s pr ar =
        Except.error "Unable to set user data for scrobbled song") ∧
    (∀ s song b, s.currentSong = some song → song.isValid = false →
      toggleLove s b = Except.error "No valid song is now playing") := by
  refine ⟨?_, ?_, ?_⟩
  · intro s pr ar b h
    refine ⟨?_, ?_, ?_, ?_⟩
    · unfold resetSongData
      simp [h]
    · unfold skipCurrentSong
      simp [h]
    · unfold setUserSongData
      simp [h]
    · unfold toggleLove
      simp [h]
  · intro s song pr ar h hscr
    unfold setUserSongData
    simp [h, hscr]
  · intro s song b h hv
    unfold toggleLove
    simp [h, hv]

/-- Witness for C9 at concrete states. -/
theorem userOps_precondition_failures_witness :
    ({ sampleState with currentSong := none } : State).currentSong = none ∧
      resetSongData { sampleState with currentSong := none }
          { isValid := true, duration := none } [] =
        Except.error "No song is now playing" ∧
      invalidSongState.currentSong = some invalidSampleSong ∧
      invalidSampleSong.isValid = false ∧
      toggleLove invalidSongState true =
        Except.error "No valid song is now playing" := by
  refine ⟨rfl, ?_, rfl, by decide, ?_⟩
  · exact (userOps_precondition_failures.1
      { sampleState with currentSong := none }
      { isValid := true, duration := none } [] true rfl).1
  · exact userOps_precondition_failures.2.2 invalidSongState invalidSampleSong
      true rfl (by decide)

/-- When every result is Ignore, every result is failed (non-Ok). -/
theorem length_failedScrobblerIdsOf_of_all_ignore
    (results : List ApiCallResult)
    (h : areAllResults results ResultType.ignore = true) :
    (failedScrobblerIdsOf results).length = results.length := by
  unfold failedScrobblerIdsOf
  rw [List.length_map]
  have hself : results.filter (fun r => !(r.is ResultType.ok)) = results := by
    apply List.filter_eq_self.mpr
    intro r hr
    have hig := List.all_eq_true.mp h r hr
    unfold ApiCallResult.is at hig ⊢
    simp only [decide_eq_true_eq] at hig
    simp [hig]
  rw [hself]

/-- Counterexample to C1 as stated: with results Ok, Error, Error the
count of non-failed results (1) does not exceed the count of failed ones
(2) and not all results are Ignore, so the claim requires mode `Err`; the
code nevertheless scrobbles, because one Ok result suffices for it. -/
theorem scrobble_classification_spec_false :
    ¬ scrobbleClassifiedPerSpecAt sampleState
      [⟨"a", ResultType.ok⟩, ⟨"b", ResultType.error⟩,
        ⟨"c", ResultType.error⟩] := by
  intro h
  have hErr := h.2.2 (by decide) (by decide)
  have hmode : (scrobbleSong sampleState
      [⟨"a", ResultType.ok⟩, ⟨"b", ResultType.error⟩,
        ⟨"c", ResultType.error⟩]).1.mode = ControllerMode.Scrobbled := by
    decide
  rw [hmode] at hErr
  exact absurd hErr (by decide)

/-- C1 (amended): after a submit, if the total number of results strictly
exceeds the number of failed (non-Ok) results — that is, at least one
backend returned Ok — the song's `isScrobbled` latch is set and the mode
becomes `Scrobbled`; otherwise the mode becomes `Ignored` when every
result is Ignore and `Err` when not; in particular all-Ignore always
yields `Ignored`. -/
theorem scrobbleSong_classification (s : State) (song : Song)
    (results : List ApiCallResult) (hsong : s.currentSong = some song) :
    (results.length > (failedScrobblerIdsOf results).length →
      (scrobbleSong s results).1.mode = ControllerMode.Scrobbled ∧
        songIsScrobbled (scrobbleSong s results).1 = true) ∧
    (¬ results.length > (failedScrobblerIdsOf results).length →
      areAllResults results ResultType.ignore = true →
      (scrobbleSong s results).1.mode = ControllerMode.Ignored) ∧
    (¬ results.length > (failedScrobblerIdsOf results).length →
      areAllResults results ResultType.ignore = false →
      (scrobbleSong s results).1.mode = ControllerMode.Err) ∧
    (areAllResults results ResultType.ignore = true →
      (scrobbleSong s results).1.mode = ControllerMode.Ignored) := by
  have hignored : ¬ results.length > (failedScrobblerIdsOf results).length →
      areAllResults results ResultType.ignore = true →
      (scrobbleSong s results).1.mode = ControllerMode.Ignored := by
    intro hng hig
    unfold scrobbleSong
    simp only [hsong]
    simp [hng, hig, setMode, addSongToScrobbleStorage]
    split <;> simp [hsong]
  refine ⟨?_, hignored, ?_, ?_⟩
  · intro hgt
    unfold scrobbleSong
    simp only [hsong]
    simp [hgt, setMode, addSongToScrobbleStorage, songIsScrobbled]
    split <;> simp [hsong]
  · intro hng hig
    unfold scrobbleSong
    simp only [hsong]
    simp [hng, hig, setMode, addSongToScrobbleStorage]
    split <;> simp [hsong]
  · intro hig
    refine hignored ?_ hig
    rw [length_failedScrobblerIdsOf_of_all_ignore results hig]
    exact lt_irrefl _

/-- Witness for the amended C1 at a concrete input with one Ok result. -/
theorem scrobbleSong_classification_witness :
    sampleState.currentSong = some sampleSong ∧
      (scrobbleSong sampleState [⟨"a", ResultType.ok⟩]).1.mode =
        ControllerMode.Scrobbled ∧
      songIsScrobbled (scrobbleSong sampleState
        [⟨"a", ResultType.ok⟩]).1 = true := by
  refine ⟨rfl, ?_⟩
  exact (scrobbleSong_classification sampleState sampleSong
    [⟨"a", ResultType.ok⟩] rfl).1 (by decide)

/-- Counterexample to C2 as stated: a single Ignore result yields no
`Error` ids, so the claim requires nothing to be queued; the code queues
the Ignore result's id, because it queues every non-Ok id. -/
theorem scrobble_queueing_spec_false :
    ¬ queuedPerSpecAt invalidSongState invalidSampleSong
      [⟨"a", ResultType.ignore⟩] := by
  unfold queuedPerSpecAt
  decide

/-- C2 (amended): after a submit, exactly the ids of the failed (non-Ok,
that is Error or Ignore) results are queued to the scrobble storage, in
one batch, whenever at least one exists — independent of the Track's
validity; ids of Ok results are never queued. -/
theorem scrobbleSong_queueing (s : State) (song : Song)
    (results : List ApiCallResult) (hsong : s.currentSong = some song) :
    storageAddsOf (scrobbleSong s results).2 =
      (if failedScrobblerIdsOf results = [] then []
      else [Effect.storageAdd song.instanceId
        (failedScrobblerIdsOf results)]) := by
  unfold scrobbleSong
  simp only [hsong]
  by_cases hf : failedScrobblerIdsOf results = []
  · simp [hf, storageAddsOf, setMode, addSongToScrobbleStorage]
    split
    all_goals try split
    all_goals simp
  · have hpos : 0 < (failedScrobblerIdsOf results).length :=
      List.length_pos.mpr hf
    simp [hf, hpos, storageAddsOf, setMode, addSongToScrobbleStorage, hsong]
    split
    all_goals try split
    all_goals try simp_all [storageAddsOf]
    all_goals (rename_i song2 heq; rw [← heq])

/-- Witness for the amended C2 at a concrete input with one Error
result. -/
theorem scrobbleSong_queueing_witness :
    invalidSongState.currentSong = some invalidSampleSong ∧
      storageAddsOf (scrobbleSong invalidSongState
          [⟨"b", ResultType.error⟩]).2 =
        [Effect.storageAdd 0 ["b"]] := by
  refine ⟨rfl, ?_⟩
  have h := scrobbleSong_queueing invalidSongState invalidSampleSong
    [⟨"b", ResultType.error⟩] rfl
  rw [h]
  decide

/-- `updateTimers` never changes the configuration flag for podcasts. -/
theorem updateTimers_shouldScrobblePodcasts (s : State) (d : Option Nat) :
    (updateTimers s d).1.shouldScrobblePodcasts = s.shouldScrobblePodcasts := by
  unfold updateTimers
  split
  · rfl
  · dsimp only
    split <;> rfl

/-- `updateTimers` never changes the current song. -/
theorem updateTimers_currentSong (s : State) (d : Option Nat) :
    (updateTimers s d).1.currentSong = s.currentSong := by
  unfold updateTimers
  split
  · rfl
  · dsimp only
    split <;> rfl

/-- `updateTimers` never changes the fresh-id counter. -/
theorem updateTimers_nextId (s : State) (d : Option Nat) :
    (updateTimers s d).1.nextId = s.nextId := by
  unfold updateTimers
  split
  · rfl
  · dsimp only
    split <;> rfl

/-- `updateTimers` never performs an announce call. -/
theorem announce_not_mem_updateTimers (s : State) (d : Option Nat) (id : Nat) :
    Effect.announce id ∉ (updateTimers s d).2 := by
  unfold updateTimers
  split
  · simp
  · dsimp only
    split <;> simp

/-- `setSongNowPlaying` never changes either timer. -/
theorem setSongNowPlaying_timers (s : State) (ar : List ApiCallResult) :
    (setSongNowPlaying s ar).1.playbackTimer = s.playbackTimer ∧
      (setSongNowPlaying s ar).1.replayDetectionTimer =
        s.replayDetectionTimer := by
  unfold setSongNowPlaying
  cases h : s.currentSong with
  | none => exact ⟨rfl, rfl⟩
  | some song =>
    simp only []
    split <;> exact ⟨rfl, rfl⟩

/-- C5: at the end of a successful pipeline run on a valid, non-excluded,
actively playing song, `processSong` performs the announce action exactly
when the playback timer (as retargeted by its `updateTimers` call) is not
expired, and dispatches the `SongNowPlaying` lifecycle event in either
case. -/
theorem processSong_announce_iff_timer_not_expired (s : State) (song : Song)
    (pr : PipeResult) (ar : List ApiCallResult)
    (hsong : s.currentSong = some song)
    (hvalid : (applyPipeline pr song).isValid = true)
    (hplay : song.parsed.isPlaying = true)
    (hpod : (!s.shouldScrobblePodcasts && song.parsed.isPodcast) = false) :
    (Effect.announce song.instanceId ∈ (processSong s pr ar).2 ↔
      (updateTimers (processSongLoadingState s pr song)
          (pipelineProcessedSong pr song).getDuration).1.playbackTimer.isExpired
        = false) ∧
    Effect.event ControllerEvent.SongNowPlaying ∈ (processSong s pr ar).2 := by
  have hpodcast : ((applyPipeline pr song).parsed.isPodcast : Bool) =
      song.parsed.isPodcast := rfl
  have hplaying : ((applyPipeline pr song).parsed.isPlaying : Bool) =
      song.parsed.isPlaying := rfl
  have hid : (applyPipeline pr song).instanceId = song.instanceId := rfl
  unfold processSong
  simp only [setMode, hsong, hvalid, if_true, hpodcast, hplaying, hplay, hpod,
    updateTimers_shouldScrobblePodcasts, processSongLoadingState,
    pipelineProcessedSong, Song.getDuration]
  rw [if_neg Bool.false_ne_true]
  split
  · rename_i hcond
    simp only [Bool.not_eq_true'] at hcond
    simp only [hid] at hcond
    simp [hcond, setSongNowPlaying, updateTimers_currentSong, setMode,
      dispatchEvent, hid, announce_not_mem_updateTimers]
  · rename_i hcond
    simp only [Bool.not_eq_true, Bool.not_eq_false'] at hcond
    simp [hcond, dispatchEvent, announce_not_mem_updateTimers]

/-- Witness for C5 at a concrete state whose playback timer is not yet
expired. -/
theorem processSong_announce_witness :
    sampleState.currentSong = some sampleSong ∧
      (applyPipeline ⟨true, none⟩ sampleSong).isValid = true ∧
      sampleSong.parsed.isPlaying = true ∧
      (!sampleState.shouldScrobblePodcasts && sampleSong.parsed.isPodcast)
        = false ∧
      Effect.announce sampleSong.instanceId ∈
        (processSong sampleState ⟨true, none⟩ [⟨"a", ResultType.ok⟩]).2 ∧
      Effect.event ControllerEvent.SongNowPlaying ∈
        (processSong sampleState ⟨true, none⟩ [⟨"a", ResultType.ok⟩]).2 := by
  have h := processSong_announce_iff_timer_not_expired sampleState sampleSong
    ⟨true, none⟩ [⟨"a", ResultType.ok⟩] rfl (by decide) (by decide) (by decide)
  exact ⟨rfl, by decide, by decide, by decide, h.1.mpr (by decide), h.2⟩

/-- C7: an empty reading while a song is current evaluates the
pending-submission heuristic first (queueing to storage when it holds),
then performs a full reset (Reset event, mode Base, song cleared); when
the empty reading claims to be playing, only an additional diagnostic is
logged. -/
theorem processStateChange_empty_reading (s : State) (song : Song)
    (st : ParsedSongInfo) (pr : PipeResult) (ar : List ApiCallResult)
    (henabled : s.isControllerEnabled = true)
    (hempty : isStateEmpty st = true)
    (hsong : s.currentSong = some song) :
    (processStateChange s st pr ar).1.mode = ControllerMode.Base ∧
      (processStateChange s st pr ar).1.currentSong = none ∧
      (processStateChange s st pr ar).2 =
        [Effect.log "Received empty state - resetting"] ++
          (if isNeedToAddSongToScrobbleStorage s then
            [Effect.storageAdd song.instanceId s.boundScrobblerIds]
          else []) ++
          [Effect.event ControllerEvent.Reset,
            Effect.modeChanged ControllerMode.Base] ++
          (if st.isPlaying then
            [Effect.log
              "State does not contain enough information about the playing track"]
          else []) := by
  unfold processStateChange processEmptyState
  by_cases hneed : isNeedToAddSongToScrobbleStorage s
  · by_cases hp : st.isPlaying = true
    · simp [henabled, hempty, hsong, hneed, hp, reset, resetState, setMode,
        dispatchEvent, addSongToScrobbleStorage]
    · simp [henabled, hempty, hsong, hneed, hp, reset, resetState, setMode,
        dispatchEvent, addSongToScrobbleStorage]
  · by_cases hp : st.isPlaying = true
    · simp [henabled, hempty, hsong, hneed, hp, reset, resetState, setMode,
        dispatchEvent, addSongToScrobbleStorage]
    · simp [henabled, hempty, hsong, hneed, hp, reset, resetState, setMode,
        dispatchEvent, addSongToScrobbleStorage]

/-- Witness for C7 at a concrete state with an empty, playing reading. -/
theorem processStateChange_empty_reading_witness :
    sampleState.isControllerEnabled = true ∧
      isStateEmpty emptyPlayingReading = true ∧
      sampleState.currentSong = some sampleSong ∧
      (processStateChange sampleState emptyPlayingReading ⟨true, none⟩ []).1.mode
        = ControllerMode.Base ∧
      (processStateChange sampleState emptyPlayingReading
        ⟨true, none⟩ []).1.currentSong = none ∧
      (processStateChange sampleState emptyPlayingReading ⟨true, none⟩ []).2 =
        [Effect.log "Received empty state - resetting",
          Effect.event ControllerEvent.Reset,
          Effect.modeChanged ControllerMode.Base,
          Effect.log
            "State does not contain enough information about the playing track"] := by
  have h := processStateChange_empty_reading sampleState sampleSong
    emptyPlayingReading ⟨true, none⟩ [] rfl (by decide) rfl
  refine ⟨rfl, by decide, rfl, h.1, h.2.1, ?_⟩
  rw [h.2.2]
  decide

/-- Under an expired playback timer, `updateSongDuration` leaves the
playback timer untouched. -/
theorem updateSongDuration_playbackTimer (s : State) (d : Nat)
    (hexp : s.playbackTimer.isExpired = true) :
    (updateSongDuration s d).1.playbackTimer = s.playbackTimer := by
  unfold updateSongDuration
  cases h : s.currentSong with
  | none => rfl
  | some song =>
    simp only [h]
    split <;> simp [updateTimers, hexp]

/-- Under an expired playback timer, `updateSongDuration` leaves the
replay timer untouched. -/
theorem updateSongDuration_replayTimer (s : State) (d : Nat)
    (hexp : s.playbackTimer.isExpired = true) :
    (updateSongDuration s d).1.replayDetectionTimer =
      s.replayDetectionTimer := by
  unfold updateSongDuration
  cases h : s.currentSong with
  | none => rfl
  | some song =>
    simp only [h]
    split <;> simp [updateTimers, hexp]

/-- `onPlayingStateChanged` never changes the playback timer target. -/
theorem onPlayingStateChanged_playback_target (s : State) (v : Bool)
    (ar : List ApiCallResult) :
    (onPlayingStateChanged s v ar).1.playbackTimer.target =
      s.playbackTimer.target := by
  unfold onPlayingStateChanged
  by_cases hv : v = true
  · cases h : s.currentSong with
    | none => simp [hv, h, Timer.resume]
    | some song =>
      simp only [hv, if_true, h]
      split <;> simp [setSongNowPlaying_timers, setMode, Timer.resume]
  · simp [hv, Timer.pause]

/-- `onPlayingStateChanged` never changes the replay timer target. -/
theorem onPlayingStateChanged_replay_target (s : State) (v : Bool)
    (ar : List ApiCallResult) :
    (onPlayingStateChanged s v ar).1.replayDetectionTimer.target =
      s.replayDetectionTimer.target := by
  unfold onPlayingStateChanged
  by_cases hv : v = true
  · cases h : s.currentSong with
    | none => simp [hv, h, Timer.resume]
    | some song =>
      simp only [hv, if_true, h]
      split <;> simp [setSongNowPlaying_timers, setMode, Timer.resume]
  · simp [hv, Timer.pause]

/-- C10: once the playback timer is expired, `updateTimers` is a no-op on
the state, and both duration updates (through `processCurrentState`) and
pipeline re-runs (through `processSong`) leave both timer targets
unchanged. -/
theorem timers_frozen_after_expiry (s : State)
    (hexp : s.playbackTimer.isExpired = true) :
    (∀ d, (updateTimers s d).1 = s) ∧
      (∀ pr ar,
        (processSong s pr ar).1.playbackTimer.target =
            s.playbackTimer.target ∧
          (processSong s pr ar).1.replayDetectionTimer.target =
            s.replayDetectionTimer.target) ∧
      (∀ st ar,
        (processCurrentState s st ar).1.playbackTimer.target =
            s.playbackTimer.target ∧
          (processCurrentState s st ar).1.replayDetectionTimer.target =
            s.replayDetectionTimer.target) := by
  refine ⟨?_, ?_, ?_⟩
  · intro d
    unfold updateTimers
    simp [hexp]
  · intro pr ar
    unfold processSong
    cases h : s.currentSong with
    | none => simp [setMode, h]
    | some song0 =>
      simp [setMode, h, updateTimers, hexp, skipCurrentSongCore,
        setSongNowPlaying, setSongNotRecognized, dispatchEvent]
      split
      all_goals try split
      all_goals try split
      all_goals simp_all [setMode]
  · intro st ar
    unfold processCurrentState
    cases h : s.currentSong with
    | none => simp
    | some song =>
      by_cases hskip : song.flags.isSkipped
      · simp [h, hskip]
      · simp only [h, hskip, Bool.false_eq_true, if_false]
        constructor
        all_goals split
        all_goals try split
        all_goals try simp [onPlayingStateChanged_playback_target,
          onPlayingStateChanged_replay_target,
          updateSongDuration_playbackTimer,
          updateSongDuration_replayTimer, hexp]

/-- Witness for C10 at a concrete state with an expired playback timer. -/
theorem timers_frozen_after_expiry_witness :
    expiredTimerState.playbackTimer.isExpired = true ∧
      (updateTimers expiredTimerState (some 300)).1 = expiredTimerState ∧
      (processSong expiredTimerState ⟨true, none⟩ []).1.playbackTimer.target =
        expiredTimerState.playbackTimer.target := by
  have h := timers_frozen_after_expiry expiredTimerState (by decide)
  exact ⟨by decide, h.1 (some 300), (h.2.1 ⟨true, none⟩ []).1⟩

/-- Counterexample to C6 as stated: a same-identity, no-replay reading
arriving while the current Track is flagged skipped is ignored entirely,
so nothing is merged; the claim requires the merge unconditionally. -/
theorem merge_spec_false :
    ¬ mergedPerSpecAt skippedSongState sameIdentityReading ⟨true, none⟩ [] := by
  unfold mergedPerSpecAt
  decide

/-- `setSongNowPlaying` never changes the parsed data of the current
song. -/
theorem setSongNowPlaying_parsed (s : State) (ar : List ApiCallResult) :
    (setSongNowPlaying s ar).1.currentSong.map Song.parsed =
      s.currentSong.map Song.parsed := by
  unfold setSongNowPlaying
  cases h : s.currentSong with
  | none => simp [h]
  | some song =>
    simp only [h]
    split <;> simp [setMode, dispatchEvent]

/-- `onPlayingStateChanged` never changes the parsed data of the current
song. -/
theorem onPlayingStateChanged_parsed (s : State) (v : Bool)
    (ar : List ApiCallResult) :
    (onPlayingStateChanged s v ar).1.currentSong.map Song.parsed =
      s.currentSong.map Song.parsed := by
  unfold onPlayingStateChanged
  by_cases hv : v = true
  · cases h : s.currentSong with
    | none => simp [hv, h]
    | some song =>
      simp only [hv, if_true, h]
      split
      · rw [show ({ s with
            playbackTimer := s.playbackTimer.resume
            replayDetectionTimer := s.replayDetectionTimer.resume } : State).currentSong
            = s.currentSong from rfl] at *
        simp [setSongNowPlaying_parsed, h]
      · simp [setMode, h]
  · simp [hv]

/-- `onPlayingStateChanged` leaves both timers paused exactly when the
new playing state is false. -/
theorem onPlayingStateChanged_paused (s : State) (v : Bool)
    (ar : List ApiCallResult) :
    (onPlayingStateChanged s v ar).1.playbackTimer.paused = !v ∧
      (onPlayingStateChanged s v ar).1.replayDetectionTimer.paused = !v := by
  unfold onPlayingStateChanged
  by_cases hv : v = true
  · cases h : s.currentSong with
    | none => simp [hv, h, Timer.resume]
    | some song =>
      simp only [hv, if_true, h]
      split <;> simp [setSongNowPlaying_timers, setMode, Timer.resume]
  · have hv' : v = false := by simpa using hv
    simp [hv', Timer.pause]

/-- `updateSongDuration` writes the new duration into the current song
and touches nothing else of it. -/
theorem updateSongDuration_parsed (s : State) (song : Song) (d : Nat)
    (h : s.currentSong = some song) :
    (updateSongDuration s d).1.currentSong.map Song.parsed =
      some { song.parsed with duration := some d } := by
  unfold updateSongDuration
  simp only [h]
  split <;> simp [updateTimers_currentSong]

/-- C6 (amended): while the controller is enabled, for a non-empty
reading with unchanged identity fields, no replay flag, and a current
song that is not flagged skipped, `processStateChange` merges the
reading's `currentTime`, `isPlaying` and `trackArt` into the current
song, updates the duration exactly when the reading carries a truthy
duration different from the current one, rebases both timers when such a
duration update happens on a valid song (subject to the expiry and
sentinel guards of `updateTimers`), and pauses or resumes both timers
when `isPlaying` toggled. -/
theorem processStateChange_merge (s : State) (song : Song)
    (st : ParsedSongInfo) (pr : PipeResult) (ar : List ApiCallResult)
    (henabled : s.isControllerEnabled = true)
    (_hne : isStateEmpty st = false)
    (hsame : isSongChanged s st = false)
    (hnorep : s.isReplayingSong = false)
    (hsong : s.currentSong = some song)
    (hskip : song.flags.isSkipped = false) :
    ((processStateChange s st pr ar).1.currentSong.map Song.parsed =
      some { song.parsed with
        currentTime := st.currentTime
        isPlaying := st.isPlaying
        trackArt := st.trackArt
        duration :=
          if isNeedToUpdateDuration song st = true then st.duration
          else song.parsed.duration }) ∧
    (isNeedToUpdateDuration song st = true → song.isValid = true →
      s.playbackTimer.isExpired = false →
      secondsToScrobbleOf s st.duration ≠ -1 →
      (processStateChange s st pr ar).1.playbackTimer.target =
          some (s.playbackTimer.elapsed +
            (secondsToScrobbleOf s st.duration).toNat) ∧
        (processStateChange s st pr ar).1.replayDetectionTimer.target =
          some (s.replayDetectionTimer.elapsed + st.duration.getD 0)) ∧
    (song.parsed.isPlaying ≠ st.isPlaying →
      (processStateChange s st pr ar).1.playbackTimer.paused = !st.isPlaying ∧
        (processStateChange s st pr ar).1.replayDetectionTimer.paused =
          !st.isPlaying) := by
  have hdureq : isNeedToUpdateDuration
      { song with parsed := { song.parsed with
          currentTime := st.currentTime
          isPlaying := st.isPlaying
          trackArt := st.trackArt } } st = isNeedToUpdateDuration song st := rfl
  unfold processStateChange processCurrentState
  simp only [henabled, hsame, hnorep, hsong, hskip, _hne, Bool.not_true,
    Bool.false_eq_true, if_false, Bool.or_self, hdureq]
  refine ⟨?_, ?_, ?_⟩
  · split
    · rw [onPlayingStateChanged_parsed]
      split
      · rename_i hdur
        cases hd : st.duration with
        | none =>
          rw [isNeedToUpdateDuration] at hdur
          simp [hd] at hdur
        | some dd =>
          simp [hdur, updateSongDuration_parsed, hd]
      · rename_i hdur
        simp [hdur]
    · split
      · rename_i hdur
        cases hd : st.duration with
        | none =>
          rw [isNeedToUpdateDuration] at hdur
          simp [hd] at hdur
        | some dd =>
          simp [hdur, updateSongDuration_parsed, hd]
      · rename_i hdur
        simp [hdur]
  · intro hdur hvalid hnexp hstc
    have hvalid2 : song.flags.isValid = true := hvalid
    cases hd : st.duration with
    | none =>
      rw [isNeedToUpdateDuration] at hdur
      simp [hd] at hdur
    | some dd =>
      rw [hd] at hstc
      have hstc2 : getSecondsToScrobble s.minTrackDuration (some dd)
          s.scrobblePercent ≠ -1 := by
        simpa [secondsToScrobbleOf] using hstc
      simp only [hdur, eq_self_iff_true, if_true]
      split
      · rw [onPlayingStateChanged_playback_target,
          onPlayingStateChanged_replay_target]
        unfold updateSongDuration updateTimers
        simp only [secondsToScrobbleOf]
        simp [Song.isValid, hvalid2, hnexp, hstc2, Timer.update]
      · unfold updateSongDuration updateTimers
        simp only [secondsToScrobbleOf]
        simp [Song.isValid, hvalid2, hnexp, hstc2, Timer.update]
  · intro hne'
    have ht : decide (song.parsed.isPlaying ≠ st.isPlaying) = true := by
      simp [hne']
    simp only [ht, if_true]
    exact onPlayingStateChanged_paused _ _ _

/-- Witness for the amended C6 at a concrete same-identity reading. -/
theorem processStateChange_merge_witness :
    sampleState.isControllerEnabled = true ∧
      isStateEmpty sameIdentityReading = false ∧
      isSongChanged sampleState sameIdentityReading = false ∧
      sampleState.isReplayingSong = false ∧
      sampleState.currentSong = some sampleSong ∧
      sampleSong.flags.isSkipped = false ∧
      (processStateChange sampleState sameIdentityReading
          ⟨true, none⟩ []).1.currentSong.map Song.parsed =
        some { sampleSong.parsed with currentTime := some 99 } := by
  have h := (processStateChange_merge sampleState sampleSong
    sameIdentityReading ⟨true, none⟩ [] rfl (by decide) (by decide) rfl rfl
    (by decide)).1
  refine ⟨rfl, by decide, by decide, rfl, rfl, by decide, ?_⟩
  rw [h]
  decide

/-- An announce-blocked id stays blocked when the id supply only grows
and the current song either keeps its key, is cleared, or carries the
latch. -/
theorem announceBlocked_of_shape (s s' : State) (id : Nat)
    (h : announceBlocked s id)
    (hnext : s.nextId ≤ s'.nextId)
    (hshape : s'.currentSong.map songKey = s.currentSong.map songKey ∨
      s'.currentSong = none ∨
      (∀ c, s'.currentSong = some c → c.flags.isMarkedAsPlaying = true)) :
    announceBlocked s' id := by
  obtain ⟨hlt, hcur⟩ := h
  refine ⟨lt_of_lt_of_le hlt hnext, ?_⟩
  intro cur hc hcid
  rcases hshape with hmap | hnone | hlatch
  · rw [hc] at hmap
    cases h2 : s.currentSong with
    | none => rw [h2] at hmap; simp at hmap
    | some song =>
      rw [h2] at hmap
      simp [songKey] at hmap
      rw [hmap.2]
      exact hcur song h2 (by rw [← hmap.1]; exact hcid)
  · rw [hc] at hnone
    cases hnone
  · exact hlatch cur hc

/-- An id strictly below the supply that differs from the current song's
is announce-blocked. -/
theorem announceBlocked_of_fresh (s' : State) (id : Nat)
    (hlt : id < s'.nextId)
    (hfresh : ∀ c, s'.currentSong = some c → c.instanceId ≠ id) :
    announceBlocked s' id :=
  ⟨hlt, fun c hc hcid => absurd hcid (hfresh c hc)⟩

/-- `addSongToScrobbleStorage` leaves the controller state unchanged. -/
theorem addSongToScrobbleStorage_state (s : State)
    (ids : Option (List String)) :
    (addSongToScrobbleStorage s ids).1 = s := by
  unfold addSongToScrobbleStorage
  cases h : s.currentSong <;> simp [h]

/-- `addSongToScrobbleStorage` never performs an announce call. -/
theorem announce_not_mem_addSongToScrobbleStorage (s : State)
    (ids : Option (List String)) (id : Nat) :
    Effect.announce id ∉ (addSongToScrobbleStorage s ids).2 := by
  unfold addSongToScrobbleStorage
  cases h : s.currentSong <;> simp [h]

/-- `scrobbleSong` never performs an announce call. -/
theorem announce_not_mem_scrobbleSong (s : State)
    (rs : List ApiCallResult) (id : Nat) :
    Effect.announce id ∉ (scrobbleSong s rs).2 := by
  unfold scrobbleSong
  cases h : s.currentSong with
  | none => simp [h]
  | some song =>
    simp only [h]
    by_cases hgt : rs.length > (failedScrobblerIdsOf rs).length
    · by_cases hq : 0 < (failedScrobblerIdsOf rs).length <;>
        simp [h, hgt, hq, setMode, addSongToScrobbleStorage, songKey]
    · by_cases hall : areAllResults rs ResultType.ignore = true
      · by_cases hq : 0 < (failedScrobblerIdsOf rs).length <;>
          simp [h, hgt, hall, hq, setMode, addSongToScrobbleStorage, songKey]
      · by_cases hq : 0 < (failedScrobblerIdsOf rs).length <;>
          simp [h, hgt, hall, hq, setMode, addSongToScrobbleStorage, songKey]

/-- `scrobbleSong` never changes the fresh-id counter. -/
theorem scrobbleSong_nextId (s : State) (rs : List ApiCallResult) :
    (scrobbleSong s rs).1.nextId = s.nextId := by
  unfold scrobbleSong
  cases h : s.currentSong with
  | none => simp [h]
  | some song =>
    simp only [h]
    by_cases hgt : rs.length > (failedScrobblerIdsOf rs).length
    · by_cases hq : 0 < (failedScrobblerIdsOf rs).length <;>
        simp [h, hgt, hq, setMode, addSongToScrobbleStorage, songKey]
    · by_cases hall : areAllResults rs ResultType.ignore = true
      · by_cases hq : 0 < (failedScrobblerIdsOf rs).length <;>
          simp [h, hgt, hall, hq, setMode, addSongToScrobbleStorage, songKey]
      · by_cases hq : 0 < (failedScrobblerIdsOf rs).length <;>
          simp [h, hgt, hall, hq, setMode, addSongToScrobbleStorage, songKey]

/-- `scrobbleSong` keeps the current song's identity and latch. -/
theorem scrobbleSong_songKey (s : State) (rs : List ApiCallResult) :
    (scrobbleSong s rs).1.currentSong.map songKey =
      s.currentSong.map songKey := by
  unfold scrobbleSong
  cases h : s.currentSong with
  | none => simp [h]
  | some song =>
    simp only [h]
    by_cases hgt : rs.length > (failedScrobblerIdsOf rs).length
    · by_cases hq : 0 < (failedScrobblerIdsOf rs).length <;>
        simp [h, hgt, hq, setMode, addSongToScrobbleStorage, songKey]
    · by_cases hall : areAllResults rs ResultType.ignore = true
      · by_cases hq : 0 < (failedScrobblerIdsOf rs).length <;>
          simp [h, hgt, hall, hq, setMode, addSongToScrobbleStorage, songKey]
      · by_cases hq : 0 < (failedScrobblerIdsOf rs).length <;>
          simp [h, hgt, hall, hq, setMode, addSongToScrobbleStorage, songKey]

/-- `scrobbleSong` preserves the announce-blocked invariant. -/
theorem scrobbleSong_blocked (s : State) (rs : List ApiCallResult) (id : Nat)
    (h : announceBlocked s id) :
    announceBlocked (scrobbleSong s rs).1 id := by
  refine announceBlocked_of_shape s _ id h ?_ ?_
  · rw [scrobbleSong_nextId]
  · exact Or.inl (scrobbleSong_songKey s rs)

/-- `setSongNowPlaying` never changes the fresh-id counter. -/
theorem setSongNowPlaying_nextId (s : State) (ar : List ApiCallResult) :
    (setSongNowPlaying s ar).1.nextId = s.nextId := by
  unfold setSongNowPlaying
  cases h : s.currentSong with
  | none => rfl
  | some song =>
    simp only [h]
    split <;> rfl

/-- `setSongNowPlaying` keeps the current song's identity. -/
theorem setSongNowPlaying_songId (s : State) (ar : List ApiCallResult) :
    (setSongNowPlaying s ar).1.currentSong.map Song.instanceId =
      s.currentSong.map Song.instanceId := by
  unfold setSongNowPlaying
  cases h : s.currentSong with
  | none => simp [h]
  | some song =>
    simp only [h]
    split <;> simp [setMode, dispatchEvent, h]

/-- `setSongNowPlaying` sets the `isMarkedAsPlaying` latch of whatever
song is current afterwards. -/
theorem setSongNowPlaying_latched (s : State) (ar : List ApiCallResult) :
    ∀ c, (setSongNowPlaying s ar).1.currentSong = some c →
      c.flags.isMarkedAsPlaying = true := by
  unfold setSongNowPlaying
  cases h : s.currentSong with
  | none =>
    intro c hc
    rw [h] at hc
    cases hc
  | some song =>
    simp only [h]
    intro c hc
    split at hc <;> (simp_all [setMode, dispatchEvent]; rw [← hc])

/-- Any announce `setSongNowPlaying` performs names the current song. -/
theorem setSongNowPlaying_announce_id (s : State) (ar : List ApiCallResult)
    (id : Nat) :
    Effect.announce id ∈ (setSongNowPlaying s ar).2 →
      s.currentSong.map Song.instanceId = some id := by
  unfold setSongNowPlaying
  cases h : s.currentSong with
  | none => simp [h]
  | some song =>
    simp only [h]
    split <;> simp [setMode, dispatchEvent, h] <;> (intro heq; simp [heq])

/-- `onPlaybackTimerExpired` never performs an announce call. -/
theorem announce_not_mem_onPlaybackTimerExpired (s : State)
    (rs : List ApiCallResult) (id : Nat) :
    Effect.announce id ∉ (onPlaybackTimerExpired s rs).2 := by
  unfold onPlaybackTimerExpired
  cases h : s.currentSong with
  | none => simp [h]
  | some song =>
    simp only [h]
    split
    · simp
    · simp [announce_not_mem_scrobbleSong]

/-- `onPlaybackTimerExpired` preserves the announce-blocked invariant. -/
theorem onPlaybackTimerExpired_blocked (s : State) (rs : List ApiCallResult)
    (id : Nat) (h : announceBlocked s id) :
    announceBlocked (onPlaybackTimerExpired s rs).1 id := by
  unfold onPlaybackTimerExpired
  cases h2 : s.currentSong with
  | none => simpa [h2] using h
  | some song =>
    have hmid : announceBlocked { s with currentSong := some { song with
        flags := { song.flags with isReadyToScrobble := true } } } id := by
      refine announceBlocked_of_shape s _ id h (le_refl _) (Or.inl ?_)
      simp [h2, songKey]
    simp only [h2]
    split
    · exact hmid
    · exact scrobbleSong_blocked _ rs id hmid

/-- `processEmptyState` never performs an announce call. -/
theorem announce_not_mem_processEmptyState (s : State)
    (st : ParsedSongInfo) (id : Nat) :
    Effect.announce id ∉ (processEmptyState s st).2 := by
  unfold processEmptyState
  cases h : s.currentSong with
  | none =>
    by_cases hp : st.isPlaying = true <;> simp [h, hp]
  | some song =>
    by_cases hneed : isNeedToAddSongToScrobbleStorage s = true <;>
      by_cases hp : st.isPlaying = true <;>
      simp [h, hneed, hp, reset, resetState, setMode, addSongToScrobbleStorage]

/-- `processEmptyState` preserves the announce-blocked invariant. -/
theorem processEmptyState_blocked (s : State) (st : ParsedSongInfo)
    (id : Nat) (h : announceBlocked s id) :
    announceBlocked (processEmptyState s st).1 id := by
  refine announceBlocked_of_shape s _ id h ?_ ?_
  · unfold processEmptyState
    cases h2 : s.currentSong with
    | none =>
      by_cases hp : st.isPlaying = true <;> simp [h2, hp]
    | some song =>
      by_cases hneed : isNeedToAddSongToScrobbleStorage s = true <;>
        by_cases hp : st.isPlaying = true <;>
        simp [h2, hneed, hp, reset, resetState, setMode,
          addSongToScrobbleStorage]
  · unfold processEmptyState
    cases h2 : s.currentSong with
    | none =>
      refine Or.inl ?_
      by_cases hp : st.isPlaying = true <;> simp [h2, hp]
    | some song =>
      refine Or.inr (Or.inl ?_)
      by_cases hneed : isNeedToAddSongToScrobbleStorage s = true <;>
        by_cases hp : st.isPlaying = true <;>
        simp [h2, hneed, hp, reset, resetState, setMode,
          addSongToScrobbleStorage]

/-- `reset` never performs an announce call and preserves the invariant. -/
theorem reset_safe (s : State) (id : Nat) (h : announceBlocked s id) :
    Effect.announce id ∉ (reset s).2 ∧ announceBlocked (reset s).1 id := by
  constructor
  · simp [reset, resetState, setMode]
  · refine announceBlocked_of_shape s _ id h (le_refl _)
      (Or.inr (Or.inl ?_))
    simp [reset, resetState, setMode]

/-- `processNewState` installs a fresh song (carrying the next id),
advances the id supply, and performs no announce call. -/
theorem processNewState_facts (s : State) (state : ParsedSongInfo) :
    (processNewState s state).1.currentSong.map Song.instanceId =
        some s.nextId ∧
      (processNewState s state).1.nextId = s.nextId + 1 ∧
      ∀ id, Effect.announce id ∉ (processNewState s state).2 := by
  unfold processNewState resetState
  refine ⟨?_, ?_, ?_⟩ <;>
    (by_cases hp : state.isPlaying = true <;>
      simp [hp, Song.make, Timer.pause])

/-- `processSong` keeps the fresh-id counter. -/
theorem processSong_nextId (s : State) (pr : PipeResult)
    (ar : List ApiCallResult) :
    (processSong s pr ar).1.nextId = s.nextId := by
  unfold processSong
  cases h : s.currentSong with
  | none => simp [setMode, h]
  | some song0 =>
    simp only [setMode, h]
    split
    all_goals try split
    all_goals try split
    all_goals try split
    all_goals simp [skipCurrentSongCore, setSongNowPlaying_nextId,
      updateTimers_nextId, updateTimers_currentSong, setMode,
      dispatchEvent, setSongNotRecognized]

/-- `processSong` keeps the current song's identity. -/
theorem processSong_songId (s : State) (pr : PipeResult)
    (ar : List ApiCallResult) :
    (processSong s pr ar).1.currentSong.map Song.instanceId =
      s.currentSong.map Song.instanceId := by
  unfold processSong
  cases h : s.currentSong with
  | none => simp [setMode, h]
  | some song0 =>
    simp only [setMode, h]
    split
    all_goals try split
    all_goals try split
    all_goals try split
    all_goals simp [skipCurrentSongCore, setSongNowPlaying_songId,
      updateTimers_currentSong, setMode, dispatchEvent,
      setSongNotRecognized, h, applyPipeline]

/-- Any announce `processSong` performs names the song that was current
when it started. -/
theorem processSong_announce_id (s : State) (pr : PipeResult)
    (ar : List ApiCallResult) (id : Nat) :
    Effect.announce id ∈ (processSong s pr ar).2 →
      s.currentSong.map Song.instanceId = some id := by
  unfold processSong
  cases h : s.currentSong with
  | none => simp [setMode, h]
  | some song0 =>
    simp only [setMode, h]
    split
    all_goals try split
    all_goals try split
    all_goals try split
    all_goals
      intro hmem
      simp [skipCurrentSongCore, setMode, dispatchEvent,
        setSongNotRecognized, announce_not_mem_updateTimers,
        updateTimers_currentSong] at hmem
    all_goals
      have := setSongNowPlaying_announce_id _ ar id hmem
      rw [updateTimers_currentSong] at this
      simpa [h, applyPipeline] using this

/-- `updateSongDuration` keeps the song's identity and latch, keeps the
id supply, and performs no announce. -/
theorem updateSongDuration_facts (s : State) (d : Nat) :
    (updateSongDuration s d).1.currentSong.map songKey =
        s.currentSong.map songKey ∧
      (updateSongDuration s d).1.nextId = s.nextId ∧
      ∀ id, Effect.announce id ∉ (updateSongDuration s d).2 := by
  unfold updateSongDuration
  cases h : s.currentSong with
  | none => simp [h]
  | some song =>
    simp only [h]
    refine ⟨?_, ?_, ?_⟩
    all_goals try split
    all_goals simp [songKey, updateTimers_currentSong, updateTimers_nextId,
      announce_not_mem_updateTimers, h]

/-- `onPlayingStateChanged` neither announces a blocked id nor unblocks
it. -/
theorem onPlayingStateChanged_safe (s : State) (v : Bool)
    (ar : List ApiCallResult) (id : Nat) (h : announceBlocked s id) :
    Effect.announce id ∉ (onPlayingStateChanged s v ar).2 ∧
      announceBlocked (onPlayingStateChanged s v ar).1 id := by
  obtain ⟨hlt, hcur⟩ := h
  unfold onPlayingStateChanged
  by_cases hv : v = true
  · rw [if_pos hv]
    cases h2 : s.currentSong with
    | none =>
      constructor
      · simp
      · refine ⟨hlt, ?_⟩
        intro cur hc hcid
        have hc2 : (none : Option Song) = some cur := hc
        cases hc2
    | some song =>
      dsimp only
      by_cases hm : (!song.flags.isMarkedAsPlaying && song.isValid) = true
      · rw [if_pos hm]
        have hmfalse : song.flags.isMarkedAsPlaying = false := by
          by_contra hx
          have hx2 : song.flags.isMarkedAsPlaying = true := by
            revert hx
            cases song.flags.isMarkedAsPlaying <;> simp
          rw [hx2] at hm
          simp at hm
        have hne : song.instanceId ≠ id := by
          intro heq
          rw [hcur song h2 heq] at hmfalse
          cases hmfalse
        constructor
        · intro hmem
          simp only [List.mem_append, List.mem_singleton] at hmem
          rcases hmem with hmem | hmem
          · simp at hmem
          · have hid2 := setSongNowPlaying_announce_id _ ar id hmem
            simp at hid2
            exact hne hid2
        · refine announceBlocked_of_fresh _ id ?_ ?_
          · rw [setSongNowPlaying_nextId]
            exact hlt
          · intro c hc
            have hmap := setSongNowPlaying_songId
              { s with
                currentSong := some song
                playbackTimer := s.playbackTimer.resume
                replayDetectionTimer := s.replayDetectionTimer.resume } ar
            rw [hc] at hmap
            simp at hmap
            rw [hmap]
            exact hne
      · rw [if_neg hm]
        constructor
        · simp [setMode]
        · refine ⟨hlt, ?_⟩
          intro cur hc hcid
          have hc2 : some song = some cur := hc
          cases hc2
          exact hcur song h2 hcid
  · rw [if_neg hv]
    constructor
    · simp
    · exact ⟨hlt, fun cur hc hcid => hcur cur hc hcid⟩

/-- `processCurrentState` neither announces a blocked id nor unblocks
it. -/
theorem processCurrentState_safe (s : State) (st : ParsedSongInfo)
    (ar : List ApiCallResult) (id : Nat) (h : announceBlocked s id) :
    Effect.announce id ∉ (processCurrentState s st ar).2 ∧
      announceBlocked (processCurrentState s st ar).1 id := by
  unfold processCurrentState
  cases h2 : s.currentSong with
  | none =>
    refine ⟨by simp, ?_⟩
    exact ⟨h.1, fun cur hc hcid => h.2 cur hc hcid⟩
  | some song =>
    dsimp only
    by_cases hskip : song.flags.isSkipped = true
    · rw [if_pos hskip]
      refine ⟨by simp, ⟨h.1, fun cur hc hcid => h.2 cur hc hcid⟩⟩
    · rw [if_neg hskip]
      have hblock1 : announceBlocked { s with currentSong := some { song with
          parsed := { song.parsed with
            currentTime := st.currentTime
            isPlaying := st.isPlaying
            trackArt := st.trackArt } } } id := by
        refine announceBlocked_of_shape s _ id ⟨h.1, h.2⟩ (le_refl _)
          (Or.inl ?_)
        simp [h2, songKey]
      set s1 : State := { s with currentSong := some { song with
        parsed := { song.parsed with
          currentTime := st.currentTime
          isPlaying := st.isPlaying
          trackArt := st.trackArt } } } with hs1
      have hblock2 : announceBlocked
          (if isNeedToUpdateDuration { song with parsed := { song.parsed with
              currentTime := st.currentTime
              isPlaying := st.isPlaying
              trackArt := st.trackArt } } st = true then
            updateSongDuration s1 (st.duration.getD 0)
          else (s1, ([] : List Effect))).1 id := by
        split
        · obtain ⟨hmap, hnext, _⟩ := updateSongDuration_facts s1
            (st.duration.getD 0)
          refine announceBlocked_of_shape s1 _ id hblock1 (le_of_eq hnext.symm) (Or.inl hmap)
        · exact hblock1
      split
      · have hsafe := onPlayingStateChanged_safe _ st.isPlaying ar id hblock2
        constructor
        · intro hmem
          simp only [List.mem_append] at hmem
          rcases hmem with hmem | hmem
          · split at hmem
            · exact (updateSongDuration_facts s1 (st.duration.getD 0)).2.2 id
                hmem
            · simp at hmem
          · exact hsafe.1 hmem
        · exact hsafe.2
      · constructor
        · intro hmem
          split at hmem
          · exact (updateSongDuration_facts s1 (st.duration.getD 0)).2.2 id
              hmem
          · simp at hmem
        · exact hblock2

/-- `skipCurrentSongCore` keeps song identity and latch, keeps the id
supply, and performs no announce. -/
theorem skipCurrentSongCore_facts (s : State) :
    (skipCurrentSongCore s).1.currentSong.map songKey =
        s.currentSong.map songKey ∧
      (skipCurrentSongCore s).1.nextId = s.nextId ∧
      ∀ id, Effect.announce id ∉ (skipCurrentSongCore s).2 := by
  unfold skipCurrentSongCore
  cases h : s.currentSong <;> simp [h, setMode, songKey]

/-- `processStateChange` neither announces a blocked id nor unblocks
it. -/
theorem processStateChange_safe (s : State) (st : ParsedSongInfo)
    (pr : PipeResult) (ar : List ApiCallResult) (id : Nat)
    (h : announceBlocked s id) :
    Effect.announce id ∉ (processStateChange s st pr ar).2 ∧
      announceBlocked (processStateChange s st pr ar).1 id := by
  unfold processStateChange
  by_cases hen : (!s.isControllerEnabled) = true
  · rw [if_pos hen]
    exact ⟨by simp, h⟩
  · rw [if_neg hen]
    by_cases hemp : isStateEmpty st = true
    · rw [if_pos hemp]
      exact ⟨announce_not_mem_processEmptyState s st id,
        processEmptyState_blocked s st id h⟩
    · rw [if_neg hemp]
      dsimp only
      by_cases hch : (isSongChanged s st || s.isReplayingSong) = true
      · rw [if_pos hch]
        by_cases hp : st.isPlaying = true
        · rw [if_pos hp]
          have hstored1 : (if isNeedToAddSongToScrobbleStorage s = true then
              addSongToScrobbleStorage s none
            else (s, ([] : List Effect))).1 = s := by
            split
            · exact addSongToScrobbleStorage_state s none
            · rfl
          rw [hstored1]
          obtain ⟨hnewSong, hnewNext, hnewAnn⟩ := processNewState_facts s st
          constructor
          · intro hmem
            simp only [List.mem_append] at hmem
            rcases hmem with (hmem | hmem) | hmem
            · split at hmem
              · exact announce_not_mem_addSongToScrobbleStorage s none id hmem
              · simp at hmem
            · exact hnewAnn id hmem
            · have hpid := processSong_announce_id _ pr ar id hmem
              rw [hnewSong] at hpid
              have : s.nextId = id := by simpa using hpid
              exact absurd h.1 (by rw [this]; exact lt_irrefl id)
          · refine announceBlocked_of_fresh _ id ?_ ?_
            · rw [processSong_nextId, hnewNext]
              exact lt_trans h.1 (Nat.lt_succ_self _)
            · intro c hc
              have hmap := processSong_songId (processNewState s st).1 pr ar
              rw [hc, hnewSong] at hmap
              have : c.instanceId = s.nextId := by simpa using hmap
              rw [this]
              exact fun heq => absurd h.1 (by rw [heq]; exact lt_irrefl id)
        · rw [if_neg hp]
          exact reset_safe s id h
      · rw [if_neg hch]
        exact processCurrentState_safe s st ar id h

/-- A single non-reset step neither announces a blocked id nor unblocks
it. -/
theorem step_safe (s : State) (σ : Step) (id : Nat)
    (h : announceBlocked s id) (hexcl : isExplicitResetStep σ = false) :
    Effect.announce id ∉ (step s σ).2 ∧ announceBlocked (step s σ).1 id := by
  cases σ with
  | stateChange st pr ar => exact processStateChange_safe s st pr ar id h
  | playbackExpired rs =>
    exact ⟨announce_not_mem_onPlaybackTimerExpired s rs id,
      onPlaybackTimerExpired_blocked s rs id h⟩
  | replayExpired =>
    refine ⟨by simp [step, onReplayTimerExpired], ⟨h.1, ?_⟩⟩
    intro cur hc hcid
    exact h.2 cur hc hcid
  | tick dt =>
    exact ⟨by simp [step], ⟨h.1, fun cur hc hcid => h.2 cur hc hcid⟩⟩
  | resetSongDataOp pr ar => simp [isExplicitResetStep] at hexcl
  | setUserSongDataOp pr ar => simp [isExplicitResetStep] at hexcl
  | skipOp =>
    show Effect.announce id ∉ (liftUserOp s (skipCurrentSong s)).2 ∧
      announceBlocked (liftUserOp s (skipCurrentSong s)).1 id
    unfold skipCurrentSong
    cases h2 : s.currentSong with
    | none =>
      exact ⟨by simp [h2, liftUserOp],
        ⟨h.1, fun cur hc hcid => h.2 cur hc hcid⟩⟩
    | some song =>
      simp only [h2, liftUserOp]
      obtain ⟨hmap, hnext, hann⟩ := skipCurrentSongCore_facts s
      exact ⟨hann id, announceBlocked_of_shape s _ id h (le_of_eq hnext.symm)
        (Or.inl hmap)⟩
  | toggleLoveOp b =>
    show Effect.announce id ∉ (liftUserOp s (toggleLove s b)).2 ∧
      announceBlocked (liftUserOp s (toggleLove s b)).1 id
    unfold toggleLove
    cases h2 : s.currentSong with
    | none =>
      exact ⟨by simp [h2, liftUserOp],
        ⟨h.1, fun cur hc hcid => h.2 cur hc hcid⟩⟩
    | some song =>
      simp only [h2]
      by_cases hval : (!song.isValid) = true
      · rw [if_pos hval]
        exact ⟨by simp [liftUserOp],
          ⟨h.1, fun cur hc hcid => h.2 cur hc hcid⟩⟩
      · rw [if_neg hval]
        refine ⟨by simp [liftUserOp], ?_⟩
        refine announceBlocked_of_shape s _ id h (le_refl _) (Or.inl ?_)
        simp [liftUserOp, h2, Song.setLoveStatus, songKey]
  | setEnabledOp flag =>
    show Effect.announce id ∉ (setEnabled s flag).2 ∧
      announceBlocked (setEnabled s flag).1 id
    unfold setEnabled
    by_cases hf : flag = true
    · rw [if_pos hf]
      exact ⟨by simp [setMode],
        ⟨h.1, fun cur hc hcid => h.2 cur hc hcid⟩⟩
    · rw [if_neg hf]
      refine ⟨by simp [resetState, setMode], ⟨h.1, ?_⟩⟩
      intro cur hc hcid
      have hc2 : (none : Option Song) = some cur := hc
      cases hc2

/-- Along any sequence of non-reset steps, a blocked id is never
announced. -/
theorem run_blocked (steps : List Step) :
    ∀ s id, announceBlocked s id →
      (∀ σ ∈ steps, isExplicitResetStep σ = false) →
      Effect.announce id ∉ (run s steps).2 := by
  induction steps with
  | nil =>
    intro s id _ _
    simp [run]
  | cons σ rest ih =>
    intro s id h hs
    have hσ := step_safe s σ id h (hs σ (by simp))
    unfold run
    simp only [List.mem_append]
    intro hmem
    rcases hmem with hmem | hmem
    · exact hσ.1 hmem
    · exact ih (step s σ).1 id hσ.2 (fun τ hτ => hs τ (by simp [hτ])) hmem

/-- C4: in every execution made of steps other than the two explicit
data-reset operations, once the current song's `isMarkedAsPlaying` latch
is set, no announce call for that song instance is ever performed
again. -/
theorem announce_never_repeated_while_latched (s : State) (song : Song)
    (steps : List Step)
    (hsong : s.currentSong = some song)
    (hflag : song.flags.isMarkedAsPlaying = true)
    (hid : song.instanceId < s.nextId)
    (hsteps : ∀ σ ∈ steps, isExplicitResetStep σ = false) :
    Effect.announce song.instanceId ∉ (run s steps).2 := by
  refine run_blocked steps s song.instanceId ⟨hid, ?_⟩ hsteps
  intro cur hc hcid
  rw [hsong] at hc
  cases hc
  exact hflag

/-- Witness for C4 at a concrete marked-as-playing state and a concrete
step sequence. -/
theorem announce_never_repeated_witness :
    markedSongState.currentSong = some markedSampleSong ∧
      markedSampleSong.flags.isMarkedAsPlaying = true ∧
      markedSampleSong.instanceId < markedSongState.nextId ∧
      Effect.announce markedSampleSong.instanceId ∉
        (run markedSongState
          [Step.stateChange sameIdentityReading ⟨true, none⟩ [],
            Step.tick 5, Step.playbackExpired [⟨"a", ResultType.ok⟩],
            Step.replayExpired, Step.skipOp, Step.toggleLoveOp true,
            Step.setEnabledOp true]).2 := by
  refine ⟨rfl, by decide, by decide, ?_⟩
  exact announce_never_repeated_while_latched markedSongState
    markedSampleSong _ rfl (by decide) (by decide) (by decide)
